import Mathlib

/-!
Shallow embedding of the express-jwt-users repository
(src/credentials.js and src/index.js) and proofs about it.

Conventions of the embedding:
* JavaScript strings are Lean `String`s; regex matching is modelled
  character-by-character on `String.data`, following ECMAScript regex
  semantics (in particular `.` matches any character except the line
  terminators U+000A, U+000D, U+2028, U+2029, and `^`/`$` without the
  `m` flag anchor at the very start/end of the input).
* The jsonschema library call in `validate` is modelled by its documented
  behaviour on the schema literal of src/credentials.js: with
  `throwError: true` the first failing check throws a ValidationError
  whose `property` is `instance.username` / `instance.password` for a
  type or pattern violation of that property, and `instance` for a
  missing required property; the schema keys are visited in insertion
  order (`properties` before `required`, `username` before `password`),
  and the `pattern` check is skipped on non-string values (the `type`
  check fails first).
* Buffers of random bytes are `List Nat`; the filesystem used by
  `getRandomBytesFrom` is a partial map from paths to byte buffers
  (directory creation by mkdirp is content-irrelevant and not modelled;
  readFileSync succeeds exactly when the file exists).
* HMAC signing by the jsonwebtoken library is modelled symbolically: a
  signature is the pair (secret, payload) and verification succeeds
  exactly when the signature was produced with the same secret over the
  same payload.
-/

set_option autoImplicit false

namespace ExpressJwtUsers

/-! ## Character classes of the two regexes in src/credentials.js -/

/-- ECMAScript line terminators, the characters NOT matched by an
unflagged `.` in a regex: U+000A, U+000D, U+2028, U+2029. -/
def isLineTerminator (c : Char) : Bool :=
  c = '\n' || c = '\r' || c.toNat = 0x2028 || c.toNat = 0x2029

/-- The regex class [A-Z]. -/
def isUpperAZ (c : Char) : Bool := 'A' ≤ c && c ≤ 'Z'

/-- The regex class [a-z]. -/
def isLowerAZ (c : Char) : Bool := 'a' ≤ c && c ≤ 'z'

/-- The regex class [0-9]. -/
def isDigit09 (c : Char) : Bool := '0' ≤ c && c ≤ '9'

/-- Code points of the single characters listed in the character class of
PASSWORD_REGEX, in source order:
~ (0x7E), backquote (0x60), ! (0x21), @ (0x40), # (0x23), $ (0x24),
% (0x25), ^ (0x5E), & (0x26), * (0x2A), ( (0x28), + (0x2B), = (0x3D),
left brace (0x7B), right brace (0x7D), [ (0x5B), ] (0x5D), | (0x7C),
; (0x3B), : (0x3A), " (0x22), < (0x3C), > (0x3E), , (0x2C), . (0x2E),
/ (0x2F), ? (0x3F). -/
def specialSingles : List Nat :=
  [0x7E, 0x60, 0x21, 0x40, 0x23, 0x24, 0x25, 0x5E, 0x26, 0x2A, 0x28,
   0x2B, 0x3D, 0x7B, 0x7D, 0x5B, 0x5D, 0x7C, 0x3B, 0x3A, 0x22, 0x3C,
   0x3E, 0x2C, 0x2E, 0x2F, 0x3F]

/-- The character class of PASSWORD_REGEX,
`[~` + backquote + `!@#$%^&*()-_+={}[\]|;:"<>,./?]` in the source.
Inside an ECMAScript character class the substring `)-_` is a RANGE from
U+0029 to U+005F (which also contains the digits and the uppercase
letters), so the class is the listed singletons together with that
range. -/
def inSpecialSet (c : Char) : Bool :=
  specialSingles.contains c.toNat || (0x29 ≤ c.toNat && c.toNat ≤ 0x5F)

/-! ## Regex matching

PASSWORD_REGEX is
`^(?=.*[A-Z])(?=.*[a-z])(?=.*[0-9])(?=.*[special]).{8,}$`
matched with String.prototype.match (no flags). -/

/-- Semantics of a lookahead body `.*[cls]` at position 0 with
backtracking: some character satisfying `cls` occurs after a (possibly
empty) run of non-line-terminator characters. -/
def dotStarSet (cls : Char → Bool) : List Char → Bool
  | [] => false
  | c :: cs => cls c || (!isLineTerminator c && dotStarSet cls cs)

/-- Semantics of the regex USERNAME pattern `^[a-z0-9_]+$` of the schema
in src/credentials.js: a non-empty string of lowercase letters, digits
and underscores. -/
def matchesUsernameRegex (s : String) : Bool :=
  !s.data.isEmpty && s.data.all (fun c => isLowerAZ c || isDigit09 c || c = '_')

/-- Semantics of PASSWORD_REGEX at position 0 (where `^` forces any
match to start): the four lookaheads, then `.{8,}$` which requires the
whole input to consist of at least 8 non-line-terminator characters. -/
def matchesPasswordRegex (s : String) : Bool :=
  dotStarSet isUpperAZ s.data &&
  dotStarSet isLowerAZ s.data &&
  dotStarSet isDigit09 s.data &&
  dotStarSet inSpecialSet s.data &&
  (decide (8 ≤ s.data.length) && s.data.all (fun c => !isLineTerminator c))

/-! ## The validate function of src/credentials.js -/

/-- A JSON field of the candidate credentials object: absent, a string,
or present with some non-string value. -/
inductive JField where
  | absent
  | str (s : String)
  | other
  deriving DecidableEq

/-- The candidate credentials object passed to validate (req.body). -/
structure Candidate where
  username : JField
  password : JField
  deriving DecidableEq

/-- The `property` field of the ValidationError thrown by jsonschema:
`instance.username`, `instance.password`, or `instance` (for a missing
required property). -/
inductive ErrProperty where
  | instUsername
  | instPassword
  | inst
  deriving DecidableEq

/-- Whether the subschema of one property errors on a field: an absent
field is skipped, a non-string fails the `type` check, a string failing
the pattern fails the `pattern` check. -/
def propertyError (pat : String → Bool) : JField → Bool
  | .absent => false
  | .str s => !pat s
  | .other => true

/-- Whether a field is absent (fails the `required` check). -/
def isAbsent : JField → Bool
  | .absent => true
  | _ => false

/-- The validate function of src/credentials.js: jsonschema validation
of the candidate against the schema
properties: username (string, pattern USERNAME), password (string,
pattern PASSWORD_REGEX); required: username, password; with
`throwError: true`, so the result is the first error in check order
(username property, password property, required) or success. -/
def validate (c : Candidate) : Except ErrProperty Unit :=
  if propertyError matchesUsernameRegex c.username then .error .instUsername
  else if propertyError matchesPasswordRegex c.password then .error .instPassword
  else if isAbsent c.username || isAbsent c.password then .error .inst
  else .ok ()

/-! ## The middleware of src/credentials.js -/

/-- Response message of the middleware for a password error. -/
def passwordMsg : String :=
  "Password should be at least 8 chars long and include a capital letter, a small letter, a digit and a special char."

/-- Response message of the middleware for a username error. -/
def usernameMsg : String :=
  "Username should only include small letters, digits and underscores."

/-- Response message of the middleware for any other validation error
(text as in the source, including its typos). -/
def genericMsg : String :=
  "An error ecured while validating the provided credentials. Make sure the is at least 8 chars long and includes a capital letter, a small letter, a digit and a special char, and the username only includes small letters, digits and underscores."

/-- The message the middleware sends for each error property, following
its branches on err.property. -/
def errMsgFor : ErrProperty → String
  | .instPassword => passwordMsg
  | .instUsername => usernameMsg
  | .inst => genericMsg

/-- Outcome of a connect middleware: pass the request on, or send a
response. -/
inductive MwResult where
  | next
  | respond (status : Nat) (msg : String)
  deriving DecidableEq

/-- The middleware exported by src/credentials.js: validate the body;
on success call next, on a ValidationError send 400 with the message
selected by err.property. -/
def middleware (body : Candidate) : MwResult :=
  match validate body with
  | .ok _ => .next
  | .error e => .respond 400 (errMsgFor e)

/-! ## The secret provisioner getRandomBytesFrom of src/index.js -/

/-- A buffer of bytes (the value of crypto.randomBytes / a file's
contents). -/
abbrev Bytes := List Nat

/-- The byte-file store: a partial map from paths to file contents. -/
abbrev FileStore := String → Option Bytes

/-- getRandomBytesFrom of src/index.js as a state transformer over the
file store. `fresh` stands for the value crypto.randomBytes(256) would
produce on this call. mkdirp.sync only creates directories and is not
modelled; readFileSync succeeds exactly when the file exists, otherwise
the freshly generated bytes are written at the path and returned. -/
def getRandomBytesFrom (fresh : Bytes) (fs : FileStore) (secretPath : String) :
    Bytes × FileStore :=
  match fs secretPath with
  | some b => (b, fs)
  | none => (fresh, fun q => if q = secretPath then some fresh else fs q)

/-- A sequence of further provisioner calls, each with its own fresh
randomness and path, run left to right. -/
def runCalls (fs : FileStore) : List (Bytes × String) → FileStore
  | [] => fs
  | (r, q) :: rest => runCalls (getRandomBytesFrom r fs q).2 rest

/-- path.join(secretsDir, name) for the simple names used here. -/
def pathJoin (a b : String) : String := a ++ "/" ++ b

/-! ## Symbolic JWT signing (jsonwebtoken) -/

/-- Validated credentials (req.body after the middleware let it
through: both fields are strings). -/
structure Creds where
  username : String
  password : String
  deriving DecidableEq

/-- The context claim of the signed payload: the object
context: (user: credentials) built in authorize. -/
structure TokenContext where
  user : Creds
  deriving DecidableEq

/-- The claims object passed to JWT.sign in authorize. -/
structure JWTPayload where
  aud : String
  sub : String
  context : TokenContext
  deriving DecidableEq

/-- A signed token; the HMAC signature is symbolic: the pair of the
secret and the signed payload. -/
structure SignedToken where
  payload : JWTPayload
  sig : Bytes × JWTPayload
  deriving DecidableEq

/-- JWT.sign payload secret. -/
def signToken (p : JWTPayload) (secret : Bytes) : SignedToken :=
  ⟨p, (secret, p)⟩

/-- JWT verification with a secret: succeeds with the payload exactly
when the signature was made with this secret over this payload. -/
def verifyToken (t : SignedToken) (secret : Bytes) : Option JWTPayload :=
  if t.sig = (secret, t.payload) then some t.payload else none

/-! ## JSON.stringify of a credentials object (used in the
no-user-found error message of authorize) -/

/-- Hexadecimal digit (lowercase), as used by JSON.stringify unicode
escapes. -/
def hexDigit (n : Nat) : Char :=
  if n < 10 then Char.ofNat (48 + n) else Char.ofNat (87 + n)

/-- JSON.stringify escaping of one character inside a string literal:
quote and backslash are escaped, the control characters U+0008, U+0009,
U+000A, U+000C, U+000D get their short escapes, other characters below
U+0020 get a unicode escape, everything else is emitted unchanged. -/
def jsEscapeChar (c : Char) : List Char :=
  if c = '"' then ['\\', '"']
  else if c = '\\' then ['\\', '\\']
  else if c.toNat = 8 then ['\\', 'b']
  else if c.toNat = 9 then ['\\', 't']
  else if c = '\n' then ['\\', 'n']
  else if c.toNat = 12 then ['\\', 'f']
  else if c = '\r' then ['\\', 'r']
  else if c.toNat < 32 then
    ['\\', 'u', '0', '0', hexDigit (c.toNat / 16), hexDigit (c.toNat % 16)]
  else [c]

/-- JSON.stringify escaping of a whole string. -/
def jsEscape (s : String) : String :=
  String.mk (s.data.map jsEscapeChar).flatten

/-- JSON.stringify of the credentials object (req.body with its two
string fields, serialized in username-then-password insertion order). -/
def jsonStringifyCreds (c : Creds) : String :=
  "\x7b\"username\":\"" ++ jsEscape c.username ++ "\",\"password\":\"" ++
    jsEscape c.password ++ "\"\x7d"

/-! ## The storage collaborator and the authorize flow of src/index.js -/

/-- A user record; only its existence matters to this core. -/
inductive UserRec where
  | mk
  deriving DecidableEq

/-- The storage collection collaborator: its logical name and its two
promise-returning operations (insertOne may reject with an error
message; findOne resolves with a record or with null). -/
structure Collection where
  collectionName : String
  insertOneFn : Creds → Except String String
  findOneFn : Creds → Option UserRec

/-- The authorize function of src/index.js: findOne on the credentials;
if null, reject with the no-user-found message embedding
JSON.stringify(credentials); else provision the namespace secret with
getRandomBytesFrom(path.join(secretsDir, collectionName)) and resolve
with the signed token (aud = collectionName, sub = username,
context.user = credentials). -/
def authorize (col : Collection) (secretsDir : String) (fresh : Bytes)
    (fs : FileStore) (c : Creds) : Except String SignedToken × FileStore :=
  match col.findOneFn c with
  | none =>
      (.error ("No user was found for the credentials: " ++ jsonStringifyCreds c), fs)
  | some _ =>
      let r := getRandomBytesFrom fresh fs (pathJoin secretsDir col.collectionName)
      (.ok (signToken ⟨col.collectionName, c.username, ⟨c⟩⟩ r.1), r.2)

/-! ## The route handlers of the router in src/index.js -/

/-- Body of an HTTP response: res.json of a plain message / storage
result, or res.json of a signed token. -/
inductive RespBody where
  | text (s : String)
  | token (t : SignedToken)
  deriving DecidableEq

/-- An HTTP response: status code and body. -/
structure Response where
  status : Nat
  body : RespBody
  deriving DecidableEq

/-- Observable server state around one request: the log of insertOne
calls, the log of findOne calls, and the secret-file store. -/
structure SysState where
  inserted : List Creds
  findOneCalls : List Creds
  fs : FileStore

/-- The credentials carried by a candidate body whose two fields are
strings (which is exactly when the middleware can call next). -/
def candidateCreds : Candidate → Option Creds
  | ⟨.str u, .str p⟩ => some ⟨u, p⟩
  | _ => none

/-- The POST / handler chain: Credentials.middleware, then register,
which delegates to collection.insertOne(req.body); an insert rejection
is surfaced as 400 with the error message, success as res.json of the
insert result. -/
def postRegister (col : Collection) (st : SysState) (body : Candidate) :
    Response × SysState :=
  match middleware body with
  | .respond s m => (⟨s, .text m⟩, st)
  | .next =>
      match candidateCreds body with
      | none => (⟨400, .text ""⟩, st)
      | some c =>
          let st1 := { st with inserted := st.inserted ++ [c] }
          match col.insertOneFn c with
          | .ok r => (⟨200, .text r⟩, st1)
          | .error m => (⟨400, .text m⟩, st1)

/-- The POST /authorize handler chain: Credentials.middleware, then
authorize; a rejection is surfaced as 403 with the error message,
success as res.json of the token. -/
def postAuthorize (col : Collection) (secretsDir : String) (fresh : Bytes)
    (st : SysState) (body : Candidate) : Response × SysState :=
  match middleware body with
  | .respond s m => (⟨s, .text m⟩, st)
  | .next =>
      match candidateCreds body with
      | none => (⟨403, .text ""⟩, st)
      | some c =>
          let st1 := { st with findOneCalls := st.findOneCalls ++ [c] }
          match authorize col secretsDir fresh st.fs c with
          | (.error m, fs2) => (⟨403, .text m⟩, { st1 with fs := fs2 })
          | (.ok t, fs2) => (⟨200, .token t⟩, { st1 with fs := fs2 })

/-- Dispatch on /authorize: the POST route (whose handler always
responds and never falls through) handles POST; every other method
reaches the router.all route, which responds 400 naming the method. -/
def authorizeRoute (method : String) (col : Collection) (secretsDir : String)
    (fresh : Bytes) (st : SysState) (body : Candidate) : Response × SysState :=
  if method = "POST" then postAuthorize col secretsDir fresh st body
  else (⟨400, .text ("Cannot " ++ method ++ " /authorize, use POST instead")⟩, st)

/-! ## The per-user resource guard of src/index.js -/

/-- One observable action of a middleware in the guard chain, in order:
sending a response, or invoking next(). -/
inductive Action where
  | send (status : Nat) (body : String)
  | callNext
  deriving DecidableEq

/-- The final middleware of the per-user route: compare the :user path
parameter with the verified token subject req.user.sub; on mismatch
send 401 naming the subject; in every case return next(). -/
def subjectCheck (paramsUser : String) (sub : String) : List Action :=
  (if paramsUser ≠ sub then
    [Action.send 401 (sub ++ " has no permission for this resource")]
   else []) ++ [Action.callNext]

/-- Message of the UnauthorizedError the express-jwt middleware passes
to the error handler on verification failure (its exact text is the
library's and is abstracted here; no claim depends on it). -/
def jwtErrorMessage : String := "UnauthorizedError"

/-- The guard chain on /:user — express-jwt verification of the bearer
token with the namespace secret, the error handler (401 with the error
message on an UnauthorizedError), then the subject check. -/
def guardChain (secret : Bytes) (t : SignedToken) (paramsUser : String) :
    List Action :=
  match verifyToken t secret with
  | none => [Action.send 401 jwtErrorMessage]
  | some pl => subjectCheck paramsUser pl.sub

/-! ## Characterization of PASSWORD_REGEX -/

/-- The password property as the spec words it: a string of length at
least 8 containing at least one uppercase letter, one lowercase letter,
one digit, and one character of the special set. (Stated for comparison
with the behaviour of PASSWORD_REGEX.) -/
def specPasswordOK (s : String) : Bool :=
  decide (8 ≤ s.data.length) && s.data.any isUpperAZ && s.data.any isLowerAZ &&
    s.data.any isDigit09 && s.data.any inSpecialSet

/-- The password property PASSWORD_REGEX actually decides: as the spec
says, plus the requirement (from the dot of the regex body) that no
character is a line terminator. -/
def strictPasswordOK (s : String) : Bool :=
  decide (8 ≤ s.data.length) && s.data.all (fun c => !isLineTerminator c) &&
    s.data.any isUpperAZ && s.data.any isLowerAZ && s.data.any isDigit09 &&
    s.data.any inSpecialSet

theorem dotStarSet_eq_any (cls : Char → Bool) (l : List Char)
    (h : l.all (fun c => !isLineTerminator c) = true) :
    dotStarSet cls l = l.any cls := by
  induction l with
  | nil => rfl
  | cons c cs ih =>
      simp only [List.all_cons, Bool.and_eq_true] at h
      simp [dotStarSet, h.1, ih h.2]

theorem matchesPasswordRegex_iff (s : String) :
    matchesPasswordRegex s = true ↔ strictPasswordOK s = true := by
  simp only [matchesPasswordRegex, strictPasswordOK, Bool.and_eq_true]
  constructor
  · rintro ⟨⟨⟨⟨h1, h2⟩, h3⟩, h4⟩, h5, h6⟩
    rw [dotStarSet_eq_any _ _ h6] at h1
    rw [dotStarSet_eq_any _ _ h6] at h2
    rw [dotStarSet_eq_any _ _ h6] at h3
    rw [dotStarSet_eq_any _ _ h6] at h4
    exact ⟨⟨⟨⟨⟨h5, h6⟩, h1⟩, h2⟩, h3⟩, h4⟩
  · rintro ⟨⟨⟨⟨⟨h5, h6⟩, h1⟩, h2⟩, h3⟩, h4⟩
    rw [dotStarSet_eq_any isUpperAZ _ h6, dotStarSet_eq_any isLowerAZ _ h6,
      dotStarSet_eq_any isDigit09 _ h6, dotStarSet_eq_any inSpecialSet _ h6]
    exact ⟨⟨⟨⟨h1, h2⟩, h3⟩, h4⟩, h5, h6⟩

/-- Claim C1, counterexample: the username "alice" conforms and
the password "Aa1!xxx" followed by a newline is a string of length 8
with an uppercase letter, a lowercase letter, a digit and a special
character — so the claim says validate accepts — yet validate rejects
it with the password field tag, because the regex dot does not match
the newline. -/
theorem c1_counterexample :
    matchesUsernameRegex "alice" = true ∧
    specPasswordOK "Aa1!xxx\n" = true ∧
    validate ⟨.str "alice", .str "Aa1!xxx\n"⟩ = .error .instPassword :=
  ⟨by decide, by decide, rfl⟩

/-- Claim C1, amended: for every credentials object whose username
conforms and whose password field is present, validate accepts exactly
when the password is a string of length at least 8 that contains no
line terminator and has at least one uppercase letter, one lowercase
letter, one digit and one character of the special set; every other
present password is rejected with the password field tag. -/
theorem c1_password_iff (u : String) (pf : JField)
    (hu : matchesUsernameRegex u = true) (hp : pf ≠ JField.absent) :
    (validate ⟨.str u, pf⟩ = .ok () ↔
      ∃ s, pf = JField.str s ∧ strictPasswordOK s = true) ∧
    (validate ⟨.str u, pf⟩ ≠ .ok () →
      validate ⟨.str u, pf⟩ = .error .instPassword) := by
  cases pf with
  | absent => exact absurd rfl hp
  | other =>
      have hv : validate ⟨.str u, .other⟩ = .error .instPassword := by
        simp [validate, propertyError, hu]
      rw [hv]
      refine ⟨⟨fun h => by simp at h, ?_⟩, fun _ => rfl⟩
      rintro ⟨s2, hs2, -⟩
      cases hs2
  | str s =>
      by_cases hm : matchesPasswordRegex s = true
      · have hv : validate ⟨.str u, .str s⟩ = .ok () := by
          simp [validate, propertyError, hu, hm, isAbsent]
        rw [hv]
        refine ⟨⟨fun _ => ⟨s, rfl, (matchesPasswordRegex_iff s).1 hm⟩, fun _ => rfl⟩, ?_⟩
        intro h
        exact absurd rfl h
      · have hm2 : matchesPasswordRegex s = false := by simpa using hm
        have hv : validate ⟨.str u, .str s⟩ = .error .instPassword := by
          simp [validate, propertyError, hu, hm2]
        rw [hv]
        refine ⟨⟨fun h => by simp at h, ?_⟩, fun _ => rfl⟩
        rintro ⟨s2, hs2, hok⟩
        cases hs2
        exact absurd ((matchesPasswordRegex_iff s).2 hok) hm

/-- Witness for the amended claim C1 at username "alice_1" and
password "Abcdef1!". -/
theorem c1_password_iff_witness :
    matchesUsernameRegex "alice_1" = true ∧
    JField.str "Abcdef1!" ≠ JField.absent ∧
    validate ⟨.str "alice_1", .str "Abcdef1!"⟩ = .ok () :=
  ⟨by decide, ⟨fun h => JField.noConfusion h,
    (c1_password_iff "alice_1" (.str "Abcdef1!") (by decide)
      (fun h => JField.noConfusion h)).1.2 ⟨"Abcdef1!", rfl, by decide⟩⟩⟩

/-! ## C2: idempotent secret provisioning -/

theorem runCalls_preserves (p : String) (b : Bytes) :
    ∀ (calls : List (Bytes × String)) (fs : FileStore), fs p = some b →
      runCalls fs calls p = some b := by
  intro calls
  induction calls with
  | nil => intro fs h; exact h
  | cons rq rest ih =>
      intro fs h
      obtain ⟨r, q⟩ := rq
      apply ih
      unfold getRandomBytesFrom
      cases hq : fs q with
      | some bq => exact h
      | none =>
          simp only
          by_cases hpq : p = q
          · rw [hpq] at h; rw [h] at hq; cases hq
          · simp [if_neg hpq, h]

theorem getRandomBytesFrom_writes (fresh : Bytes) (fs : FileStore) (p : String) :
    (getRandomBytesFrom fresh fs p).2 p = some (getRandomBytesFrom fresh fs p).1 := by
  unfold getRandomBytesFrom
  cases h : fs p with
  | some b => exact h
  | none => simp

theorem getRandomBytesFrom_read (fresh : Bytes) (fs : FileStore) (p : String)
    (b : Bytes) (h : fs p = some b) : getRandomBytesFrom fresh fs p = (b, fs) := by
  unfold getRandomBytesFrom
  rw [h]

/-- Claim C2: once a secret has been created for a namespace by the
Secret Provisioner, every subsequent call for that namespace — after
any interleaved sequence of provisioner calls, in particular an
immediately repeated one — returns the same bytes unchanged. -/
theorem c2_provisioner_idempotent (fs : FileStore) (r1 r2 : Bytes) (p : String)
    (calls : List (Bytes × String)) :
    (getRandomBytesFrom r2 (runCalls (getRandomBytesFrom r1 fs p).2 calls) p).1 =
      (getRandomBytesFrom r1 fs p).1 := by
  have h1 : (getRandomBytesFrom r1 fs p).2 p = some (getRandomBytesFrom r1 fs p).1 :=
    getRandomBytesFrom_writes r1 fs p
  have h2 : runCalls (getRandomBytesFrom r1 fs p).2 calls p =
      some (getRandomBytesFrom r1 fs p).1 :=
    runCalls_preserves p _ calls _ h1
  rw [getRandomBytesFrom_read r2 _ p _ h2]

/-! ## C3: authorize round-trip -/

theorem verify_sign (p : JWTPayload) (secret : Bytes) :
    verifyToken (signToken p secret) secret = some p := by
  simp [signToken, verifyToken]

/-- Claim C3: for every valid credentials object for which the storage
lookup finds a user, the token produced by authorize, verified with the
secret that the namespace's secret file holds afterwards, yields the
username as subject and the collection name (the namespace) as
audience. -/
theorem c3_roundtrip (col : Collection) (secretsDir : String) (fresh : Bytes)
    (fs : FileStore) (c : Creds) (usr : UserRec)
    (_hval : validate ⟨.str c.username, .str c.password⟩ = .ok ())
    (hfind : col.findOneFn c = some usr) :
    ∃ (t : SignedToken) (secret : Bytes) (pl : JWTPayload),
      (authorize col secretsDir fresh fs c).1 = .ok t ∧
      (authorize col secretsDir fresh fs c).2
        (pathJoin secretsDir col.collectionName) = some secret ∧
      verifyToken t secret = some pl ∧
      pl.sub = c.username ∧ pl.aud = col.collectionName := by
  unfold authorize
  rw [hfind]
  refine ⟨_, (getRandomBytesFrom fresh fs (pathJoin secretsDir col.collectionName)).1,
    ⟨col.collectionName, c.username, ⟨c⟩⟩, rfl, ?_, verify_sign _ _, rfl, rfl⟩
  exact getRandomBytesFrom_writes fresh fs (pathJoin secretsDir col.collectionName)

/-- Witness for claim C3: the concrete round-trip of the spec scenario
(alice_1, Abcdef1!, namespace "users") on an initially empty secret
store. -/
theorem c3_roundtrip_witness :
    validate ⟨.str "alice_1", .str "Abcdef1!"⟩ = .ok () ∧
    (Collection.mk "users" (fun _ => .ok "") (fun _ => some .mk)).findOneFn
      ⟨"alice_1", "Abcdef1!"⟩ = some .mk ∧
    ∃ (t : SignedToken) (secret : Bytes) (pl : JWTPayload),
      (authorize (Collection.mk "users" (fun _ => .ok "") (fun _ => some .mk))
        "/secrets" [1, 2, 3] (fun _ => none) ⟨"alice_1", "Abcdef1!"⟩).1 = .ok t ∧
      (authorize (Collection.mk "users" (fun _ => .ok "") (fun _ => some .mk))
        "/secrets" [1, 2, 3] (fun _ => none) ⟨"alice_1", "Abcdef1!"⟩).2
        (pathJoin "/secrets" "users") = some secret ∧
      verifyToken t secret = some pl ∧
      pl.sub = "alice_1" ∧ pl.aud = "users" :=
  ⟨rfl, rfl,
    c3_roundtrip (Collection.mk "users" (fun _ => .ok "") (fun _ => some .mk))
      "/secrets" [1, 2, 3] (fun _ => none) ⟨"alice_1", "Abcdef1!"⟩ .mk rfl rfl⟩

/-! ## C4: no matching user -/

theorem middleware_next_of_valid (body : Candidate)
    (h : validate body = .ok ()) : middleware body = .next := by
  unfold middleware
  rw [h]

theorem postAuthorize_no_user (col : Collection) (secretsDir : String)
    (fresh : Bytes) (st : SysState) (u p : String)
    (hval : validate ⟨.str u, .str p⟩ = .ok ())
    (hfind : col.findOneFn ⟨u, p⟩ = none) :
    (postAuthorize col secretsDir fresh st ⟨.str u, .str p⟩).1 =
      ⟨403, .text ("No user was found for the credentials: " ++
        jsonStringifyCreds ⟨u, p⟩)⟩ := by
  unfold postAuthorize
  rw [middleware_next_of_valid _ hval]
  simp only [candidateCreds]
  unfold authorize
  rw [hfind]

/-- Claim C4: for every valid credentials object for which findOne
returns no record, the POST /authorize handler responds 403 with the
no-user-found message. -/
theorem c4_no_user_403 (col : Collection) (secretsDir : String) (fresh : Bytes)
    (st : SysState) (u p : String)
    (hval : validate ⟨.str u, .str p⟩ = .ok ())
    (hfind : col.findOneFn ⟨u, p⟩ = none) :
    (postAuthorize col secretsDir fresh st ⟨.str u, .str p⟩).1 =
      ⟨403, .text ("No user was found for the credentials: " ++
        jsonStringifyCreds ⟨u, p⟩)⟩ :=
  postAuthorize_no_user col secretsDir fresh st u p hval hfind

/-- Witness for claim C4 at the spec scenario credentials against a
collection whose findOne never matches. -/
theorem c4_no_user_403_witness :
    validate ⟨.str "alice_1", .str "Abcdef1!"⟩ = .ok () ∧
    (Collection.mk "users" (fun _ => .ok "") (fun _ => none)).findOneFn
      ⟨"alice_1", "Abcdef1!"⟩ = none ∧
    (postAuthorize (Collection.mk "users" (fun _ => .ok "") (fun _ => none))
      "/secrets" [1] ⟨[], [], fun _ => none⟩ ⟨.str "alice_1", .str "Abcdef1!"⟩).1 =
      ⟨403, .text ("No user was found for the credentials: " ++
        jsonStringifyCreds ⟨"alice_1", "Abcdef1!"⟩)⟩ :=
  ⟨rfl, rfl,
    c4_no_user_403 (Collection.mk "users" (fun _ => .ok "") (fun _ => none))
      "/secrets" [1] ⟨[], [], fun _ => none⟩ "alice_1" "Abcdef1!" rfl rfl⟩

/-! ## C5: missing fields and wrong types -/

theorem middleware_error (body : Candidate) (e : ErrProperty)
    (h : validate body = .error e) :
    middleware body = .respond 400 (errMsgFor e) := by
  unfold middleware
  rw [h]

/-- Claim C5, counterexample: a candidate whose username is present
with a non-string value (and whose password is a conforming string) is
rejected with the username-specific message, not the generic one — the
jsonschema type error carries property instance.username. -/
theorem c5_counterexample :
    validate ⟨.other, .str "Abcdef1!"⟩ = .error .instUsername ∧
    middleware ⟨.other, .str "Abcdef1!"⟩ = .respond 400 usernameMsg ∧
    usernameMsg ≠ genericMsg :=
  ⟨rfl, rfl, by decide⟩

/-- Claim C5, amended: a candidate with a missing field produces the
generic validation error provided every present field is a conforming
string; a present field of the wrong type produces that field's
specific error — the username-specific one when the username is a
non-string, the password-specific one when the username passes its
property check and the password is a non-string. -/
theorem c5_shape_errors :
    (∀ b : Candidate, (b.username = .absent ∨ b.password = .absent) →
      propertyError matchesUsernameRegex b.username = false →
      propertyError matchesPasswordRegex b.password = false →
      middleware b = .respond 400 genericMsg) ∧
    (∀ b : Candidate, b.username = .other →
      middleware b = .respond 400 usernameMsg) ∧
    (∀ b : Candidate, propertyError matchesUsernameRegex b.username = false →
      b.password = .other → middleware b = .respond 400 passwordMsg) := by
  refine ⟨?_, ?_, ?_⟩
  · intro b habs hu hp
    have hv : validate b = .error .inst := by
      unfold validate
      rw [hu, hp]
      have : (isAbsent b.username || isAbsent b.password) = true := by
        rcases habs with h | h <;> rw [h] <;> simp [isAbsent]
      rw [this]
      rfl
    exact middleware_error b .inst hv
  · intro b hu
    have hv : validate b = .error .instUsername := by
      unfold validate
      rw [hu]
      rfl
    exact middleware_error b .instUsername hv
  · intro b hu hp
    have hv : validate b = .error .instPassword := by
      unfold validate
      rw [hu, hp]
      rfl
    exact middleware_error b .instPassword hv

/-- Witness for the amended claim C5: a missing password with a
conforming username gives the generic message; a non-string username
gives the username message; a conforming username with a non-string
password gives the password message. -/
theorem c5_shape_errors_witness :
    middleware ⟨.str "alice_1", .absent⟩ = .respond 400 genericMsg ∧
    middleware ⟨.other, .str "Abcdef1!"⟩ = .respond 400 usernameMsg ∧
    middleware ⟨.str "alice_1", .other⟩ = .respond 400 passwordMsg :=
  ⟨c5_shape_errors.1 ⟨.str "alice_1", .absent⟩ (Or.inr rfl) (by decide) rfl,
   c5_shape_errors.2.1 ⟨.other, .str "Abcdef1!"⟩ rfl,
   c5_shape_errors.2.2 ⟨.str "alice_1", .other⟩ (by decide) rfl⟩

/-! ## C6 and C10: the per-user resource guard -/

/-- Claim C6: a request to a per-user path whose token verifies but
whose subject differs from the :user path segment is answered 401 with
a message naming the token's subject (and the chain then calls next,
see the following theorem). -/
theorem c6_subject_mismatch_401 (secret : Bytes) (t : SignedToken)
    (paramsUser : String) (pl : JWTPayload)
    (hv : verifyToken t secret = some pl) (hm : paramsUser ≠ pl.sub) :
    guardChain secret t paramsUser =
      [Action.send 401 (pl.sub ++ " has no permission for this resource"),
       Action.callNext] := by
  unfold guardChain
  rw [hv]
  show subjectCheck paramsUser pl.sub = _
  unfold subjectCheck
  rw [if_pos hm]
  rfl

/-- Witness for claim C6: the spec scenario — a request to /alice_1
with a valid token whose subject is bob_2. -/
theorem c6_subject_mismatch_401_witness :
    verifyToken (signToken ⟨"users", "bob_2", ⟨⟨"bob_2", "Abcdef1!"⟩⟩⟩ [5])
      [5] = some ⟨"users", "bob_2", ⟨⟨"bob_2", "Abcdef1!"⟩⟩⟩ ∧
    "alice_1" ≠ "bob_2" ∧
    guardChain [5] (signToken ⟨"users", "bob_2", ⟨⟨"bob_2", "Abcdef1!"⟩⟩⟩ [5])
      "alice_1" =
      [Action.send 401 ("bob_2" ++ " has no permission for this resource"),
       Action.callNext] :=
  ⟨verify_sign _ _, by decide,
    c6_subject_mismatch_401 [5]
      (signToken ⟨"users", "bob_2", ⟨⟨"bob_2", "Abcdef1!"⟩⟩⟩ [5]) "alice_1"
      ⟨"users", "bob_2", ⟨⟨"bob_2", "Abcdef1!"⟩⟩⟩ (verify_sign _ _) (by decide)⟩

/-- Claim C10: the subject-check middleware returns next()
unconditionally, so even when the subject mismatches the :user segment
and the 401 response is sent, the request is still passed on to
downstream handlers. -/
theorem c10_next_unconditional (paramsUser sub : String) :
    Action.callNext ∈ subjectCheck paramsUser sub ∧
    (paramsUser ≠ sub →
      Action.send 401 (sub ++ " has no permission for this resource") ∈
        subjectCheck paramsUser sub) := by
  constructor
  · unfold subjectCheck
    simp
  · intro hm
    unfold subjectCheck
    rw [if_pos hm]
    simp

/-- Witness for claim C10 at the mismatched pair of claim C6's
scenario. -/
theorem c10_next_unconditional_witness :
    Action.callNext ∈ subjectCheck "alice_1" "bob_2" ∧
    Action.send 401 ("bob_2" ++ " has no permission for this resource") ∈
      subjectCheck "alice_1" "bob_2" :=
  ⟨(c10_next_unconditional "alice_1" "bob_2").1,
   (c10_next_unconditional "alice_1" "bob_2").2 (by decide)⟩

/-! ## C7: validation failure touches nothing -/

/-- Claim C7: a POST / or POST /authorize request whose body fails
credential validation is answered 400 with the middleware's message and
leaves the system state — the insertOne log, the findOne log and the
secret-file store — exactly unchanged. -/
theorem c7_validation_failure_frame (col : Collection) (secretsDir : String)
    (fresh : Bytes) (st : SysState) (body : Candidate) (e : ErrProperty)
    (h : validate body = .error e) :
    postRegister col st body = (⟨400, .text (errMsgFor e)⟩, st) ∧
    postAuthorize col secretsDir fresh st body =
      (⟨400, .text (errMsgFor e)⟩, st) := by
  have hmw : middleware body = .respond 400 (errMsgFor e) := middleware_error body e h
  constructor
  · unfold postRegister
    rw [hmw]
  · unfold postAuthorize
    rw [hmw]

/-- Witness for claim C7: a body with a non-conforming username is
rejected by both handlers with the username message, state untouched. -/
theorem c7_validation_failure_frame_witness :
    validate ⟨.str "bad user", .str "x"⟩ = .error .instUsername ∧
    postRegister (Collection.mk "users" (fun _ => .ok "") (fun _ => none))
      ⟨[], [], fun _ => none⟩ ⟨.str "bad user", .str "x"⟩ =
      (⟨400, .text (errMsgFor .instUsername)⟩, ⟨[], [], fun _ => none⟩) ∧
    postAuthorize (Collection.mk "users" (fun _ => .ok "") (fun _ => none))
      "/secrets" [1] ⟨[], [], fun _ => none⟩ ⟨.str "bad user", .str "x"⟩ =
      (⟨400, .text (errMsgFor .instUsername)⟩, ⟨[], [], fun _ => none⟩) :=
  ⟨rfl,
    (c7_validation_failure_frame
      (Collection.mk "users" (fun _ => .ok "") (fun _ => none)) "/secrets" [1]
      ⟨[], [], fun _ => none⟩ ⟨.str "bad user", .str "x"⟩ .instUsername rfl).1,
    (c7_validation_failure_frame
      (Collection.mk "users" (fun _ => .ok "") (fun _ => none)) "/secrets" [1]
      ⟨[], [], fun _ => none⟩ ⟨.str "bad user", .str "x"⟩ .instUsername rfl).2⟩

/-! ## C8: non-POST methods on /authorize -/

/-- Claim C8: any method other than POST on /authorize is answered 400
with the message naming the offending method and saying to use POST
instead. -/
theorem c8_non_post_400 (method : String) (col : Collection)
    (secretsDir : String) (fresh : Bytes) (st : SysState) (body : Candidate)
    (h : method ≠ "POST") :
    authorizeRoute method col secretsDir fresh st body =
      (⟨400, .text ("Cannot " ++ method ++ " /authorize, use POST instead")⟩, st) := by
  unfold authorizeRoute
  rw [if_neg h]

/-- Witness for claim C8 at the spec scenario PUT /authorize. -/
theorem c8_non_post_400_witness :
    "PUT" ≠ "POST" ∧
    authorizeRoute "PUT" (Collection.mk "users" (fun _ => .ok "") (fun _ => none))
      "/secrets" [1] ⟨[], [], fun _ => none⟩ ⟨.str "alice_1", .str "Abcdef1!"⟩ =
      (⟨400, .text ("Cannot " ++ "PUT" ++ " /authorize, use POST instead")⟩,
        ⟨[], [], fun _ => none⟩) :=
  ⟨by decide,
    c8_non_post_400 "PUT" (Collection.mk "users" (fun _ => .ok "") (fun _ => none))
      "/secrets" [1] ⟨[], [], fun _ => none⟩ ⟨.str "alice_1", .str "Abcdef1!"⟩
      (by decide)⟩

/-! ## C9: the 403 body embeds the submitted credentials -/

theorem flatten_map_singleton (f : Char → List Char) :
    ∀ l : List Char, (∀ c ∈ l, f c = [c]) → (l.map f).flatten = l := by
  intro l
  induction l with
  | nil => intro _; rfl
  | cons c cs ih =>
      intro h
      have hc : f c = [c] := h c (by simp)
      have hcs : (cs.map f).flatten = cs := ih fun x hx => h x (by simp [hx])
      simp [hc, hcs]

theorem jsEscape_id (s : String) (h : ∀ c ∈ s.data, jsEscapeChar c = [c]) :
    jsEscape s = s := by
  unfold jsEscape
  rw [flatten_map_singleton jsEscapeChar s.data h]

/-- Claim C9: every authorize request whose valid credentials match no
stored user is answered 403 with a body that embeds the full submitted
credentials object JSON-serialized inside the error message; the
password occurs in that body in its JSON-serialized (escaped) form —
hence verbatim in plaintext whenever none of its characters needs a
JSON escape. -/
theorem c9_password_leak (col : Collection) (secretsDir : String)
    (fresh : Bytes) (st : SysState) (u p : String)
    (hval : validate ⟨.str u, .str p⟩ = .ok ())
    (hfind : col.findOneFn ⟨u, p⟩ = none) :
    (postAuthorize col secretsDir fresh st ⟨.str u, .str p⟩).1 =
      ⟨403, .text ("No user was found for the credentials: " ++
        jsonStringifyCreds ⟨u, p⟩)⟩ ∧
    (∃ pre post : List Char,
      ("No user was found for the credentials: " ++
        jsonStringifyCreds ⟨u, p⟩).data = pre ++ (jsEscape p).data ++ post) ∧
    ((∀ c ∈ p.data, jsEscapeChar c = [c]) →
      ∃ pre post : List Char,
        ("No user was found for the credentials: " ++
          jsonStringifyCreds ⟨u, p⟩).data = pre ++ p.data ++ post) := by
  have hsplit : ∃ pre post : List Char,
      ("No user was found for the credentials: " ++
        jsonStringifyCreds ⟨u, p⟩).data = pre ++ (jsEscape p).data ++ post := by
    refine ⟨("No user was found for the credentials: \x7b\"username\":\"" ++
      jsEscape u ++ "\",\"password\":\"").data, "\"\x7d".data, ?_⟩
    unfold jsonStringifyCreds
    simp [String.data_append, List.append_assoc]
  refine ⟨postAuthorize_no_user col secretsDir fresh st u p hval hfind, hsplit, ?_⟩
  intro hplain
  obtain ⟨pre, post, hh⟩ := hsplit
  rw [jsEscape_id p hplain] at hh
  exact ⟨pre, post, hh⟩

/-- Witness for claim C9 at the spec scenario credentials, whose
password needs no JSON escaping. -/
theorem c9_password_leak_witness :
    validate ⟨.str "alice_1", .str "Abcdef1!"⟩ = .ok () ∧
    (Collection.mk "users" (fun _ => .ok "") (fun _ => none)).findOneFn
      ⟨"alice_1", "Abcdef1!"⟩ = none ∧
    ((postAuthorize (Collection.mk "users" (fun _ => .ok "") (fun _ => none))
      "/secrets" [1] ⟨[], [], fun _ => none⟩ ⟨.str "alice_1", .str "Abcdef1!"⟩).1 =
      ⟨403, .text ("No user was found for the credentials: " ++
        jsonStringifyCreds ⟨"alice_1", "Abcdef1!"⟩)⟩ ∧
    (∃ pre post : List Char,
      ("No user was found for the credentials: " ++
        jsonStringifyCreds ⟨"alice_1", "Abcdef1!"⟩).data =
        pre ++ (jsEscape "Abcdef1!").data ++ post) ∧
    ∃ pre post : List Char,
      ("No user was found for the credentials: " ++
        jsonStringifyCreds ⟨"alice_1", "Abcdef1!"⟩).data =
        pre ++ "Abcdef1!".data ++ post) :=
  have h := c9_password_leak
    (Collection.mk "users" (fun _ => .ok "") (fun _ => none))
    "/secrets" [1] ⟨[], [], fun _ => none⟩ "alice_1" "Abcdef1!" rfl rfl
  ⟨rfl, rfl, h.1, h.2.1, h.2.2 (by decide)⟩

end ExpressJwtUsers
